import Mathlib

/-!
Shallow embedding of the Pallet-Token multi-asset ledger (src/src/lib.rs).

The pallet stores seven storage items (Tokens, TokenCount, TokenBalance,
TokenSupply, TokenPaused, TokenApproval, TokenOwner) and exposes the
dispatchables create, transfer, transfer_from, pause, mint, burn plus the
helper transfer_.  Storage maps are modelled as association lists whose
reads fall back to the type's default value, exactly like substrate's
non-Option storage maps.  Balances (`BalanceOf<T>`, taken as u128) and the
u32 token counter use wrapping arithmetic modulo 2^128 resp. 2^32,
matching the unchecked `+`/`-` of the source in a release (wasm) build.
-/

namespace PalletToken

abbrev AccountId := Nat
abbrev TokenIndex := Nat
abbrev Balance := Nat

/-- Modulus of the 128-bit balance type. -/
def BALANCE_MOD : Nat := 2 ^ 128

/-- Modulus of the 32-bit token counter. -/
def TOKEN_INDEX_MOD : Nat := 2 ^ 32

/-- The default AccountId returned by a storage map for an absent key
(substrate `Default::default()`, the all-zero account). -/
def defaultAccount : AccountId := 0

/-- Wrapping addition of the fixed-width balance type. -/
def wadd (a b : Nat) : Nat := (a + b) % BALANCE_MOD

/-- Wrapping subtraction of the fixed-width balance type. -/
def wsub (a b : Nat) : Nat :=
  (BALANCE_MOD + a % BALANCE_MOD - b % BALANCE_MOD) % BALANCE_MOD

/-- Lookup in an association-list storage map. -/
def alookup {α β : Type} [DecidableEq α] : List (α × β) → α → Option β
  | [], _ => none
  | p :: rest, k => if k = p.1 then some p.2 else alookup rest k

/-- Insert (overwrite) in an association-list storage map. -/
def ainsert {α β : Type} [DecidableEq α] (m : List (α × β)) (k : α) (v : β) :
    List (α × β) :=
  (k, v) :: m.filter (fun p => decide (p.1 ≠ k))

/-- `TokenInfo` record stored in the `Tokens` map. -/
structure TokenInfo where
  name : List Nat
  symbol : List Nat
  owner : AccountId
  created : Nat
deriving DecidableEq

/-- The pallet's whole storage. -/
structure LedgerState where
  tokens : List (TokenIndex × TokenInfo)
  tokenCount : TokenIndex
  tokenBalance : List ((TokenIndex × AccountId) × Balance)
  tokenSupply : List (TokenIndex × Balance)
  tokenPaused : List (TokenIndex × Bool)
  tokenApproval : List ((TokenIndex × AccountId × AccountId) × Balance)
  tokenOwner : List (TokenIndex × AccountId)
deriving DecidableEq

/-- Genesis storage: every map empty, TokenCount = 0. -/
def emptyLedger : LedgerState := ⟨[], 0, [], [], [], [], []⟩

/-- Getter `token_balance`: absent entries read as 0. -/
def token_balance (s : LedgerState) (k : TokenIndex × AccountId) : Balance :=
  (alookup s.tokenBalance k).getD 0

/-- Getter `token_supply`: absent entries read as 0. -/
def token_supply (s : LedgerState) (t : TokenIndex) : Balance :=
  (alookup s.tokenSupply t).getD 0

/-- Getter `token_paused`: absent entries read as false. -/
def token_paused (s : LedgerState) (t : TokenIndex) : Bool :=
  (alookup s.tokenPaused t).getD false

/-- Getter `token_owner`: absent entries read as the default AccountId. -/
def token_owner (s : LedgerState) (t : TokenIndex) : AccountId :=
  (alookup s.tokenOwner t).getD defaultAccount

/-- Events deposited by the pallet. -/
inductive Event where
  | Created (token : TokenIndex) (owner : AccountId)
  | Burn (token : TokenIndex) (sender : AccountId) (amount : Balance)
  | Mint (token : TokenIndex) (receiver : AccountId) (amount : Balance)
  | Transfer (token : TokenIndex) (sender : AccountId) (receiver : AccountId)
      (amount : Balance)
  | TransferFrom (token : TokenIndex) (sender : AccountId) (spender : AccountId)
      (amount : Balance)
  | Approval (token : TokenIndex) (spender : AccountId) (user : AccountId)
      (amount : Balance)
  | PausedOperation (token : TokenIndex) (status : Bool)
deriving DecidableEq

/-- The pallet's `decl_error` variants. -/
inductive Error where
  | NotTokenOwner
  | InsufficientAmount
  | InsufficientApproval
deriving DecidableEq

deriving instance DecidableEq for Except

/-- A successful dispatch commits a new state and deposits one event; a
failed dispatch commits nothing and deposits nothing. -/
abbrev DispatchResult := Except Error (LedgerState × Event)

/-- `create(origin, owner, name, symbol, initial_supply)` (lib.rs 87-116).
Note: line 111 of the source inserts the CALLER, not the `owner` argument,
into the `TokenOwner` map; the `owner` argument goes only into `TokenInfo`. -/
def create (s : LedgerState) (caller : AccountId) (owner : AccountId)
    (name symbol : List Nat) (initial_supply : Balance) (block_number : Nat) :
    LedgerState × Event :=
  let index := s.tokenCount
  let count2 := (index + 1) % TOKEN_INDEX_MOD
  let tokens2 := ainsert s.tokens index
    { name := name, symbol := symbol, owner := owner, created := block_number }
  let balance2 := ainsert s.tokenBalance (index, caller) initial_supply
  let supply2 := ainsert s.tokenSupply index initial_supply
  let owner2 := ainsert s.tokenOwner index caller
  ({ s with tokenCount := count2, tokens := tokens2, tokenBalance := balance2,
            tokenSupply := supply2, tokenOwner := owner2 },
   Event.Created index caller)

/-- `transfer(origin, token, to, value)` (lib.rs 118-134).  Both balances are
read before either write; the subtraction and addition are unchecked. -/
def transfer (s : LedgerState) (caller : AccountId) (token : TokenIndex)
    (to_ : AccountId) (value : Balance) : DispatchResult :=
  let sender_balance := token_balance s (token, caller)
  let receiver_balance := token_balance s (token, to_)
  let b1 := ainsert s.tokenBalance (token, caller) (wsub sender_balance value)
  let b2 := ainsert b1 (token, to_) (wadd receiver_balance value)
  .ok ({ s with tokenBalance := b2 },
       Event.Transfer token caller to_ value)

/-- `transfer_from(origin, token, from, value)` (lib.rs 136-152): debits
`from` and credits the caller, with the same unchecked arithmetic. -/
def transfer_from (s : LedgerState) (caller : AccountId) (token : TokenIndex)
    (from_ : AccountId) (value : Balance) : DispatchResult :=
  let to_ := caller
  let from_balance := token_balance s (token, from_)
  let to_balance := token_balance s (token, to_)
  let b1 := ainsert s.tokenBalance (token, from_) (wsub from_balance value)
  let b2 := ainsert b1 (token, to_) (wadd to_balance value)
  .ok ({ s with tokenBalance := b2 },
       Event.TransferFrom token from_ to_ value)

/-- `pause(origin, token, status)` (lib.rs 155-174).  The source reads the
current flag and re-stores it: the `status` argument is never consulted. -/
def pause (s : LedgerState) (caller : AccountId) (token : TokenIndex)
    (status : Bool) : DispatchResult :=
  let towner := token_owner s token
  if caller = towner then
    let token_boolean := token_paused s token
    let new_status := if token_boolean then true else false
    .ok ({ s with tokenPaused := ainsert s.tokenPaused token new_status },
         Event.PausedOperation token new_status)
  else
    .error Error.NotTokenOwner

/-- `mint(origin, token, value)` (lib.rs 176-193): owner-gated, unchecked
additions to the caller's balance and the supply. -/
def mint (s : LedgerState) (caller : AccountId) (token : TokenIndex)
    (value : Balance) : DispatchResult :=
  if caller = token_owner s token then
    let minter_balance := token_balance s (token, caller)
    let supply := token_supply s token
    let b2 := ainsert s.tokenBalance (token, caller) (wadd minter_balance value)
    let s2 := ainsert s.tokenSupply token (wadd supply value)
    .ok ({ s with tokenBalance := b2, tokenSupply := s2 },
         Event.Mint token caller value)
  else
    .error Error.NotTokenOwner

/-- `burn(origin, token, value)` (lib.rs 195-212): owner-gated, unchecked
subtractions from the caller's balance and the supply. -/
def burn (s : LedgerState) (caller : AccountId) (token : TokenIndex)
    (value : Balance) : DispatchResult :=
  if caller = token_owner s token then
    let burner_balance := token_balance s (token, caller)
    let supply := token_supply s token
    let b2 := ainsert s.tokenBalance (token, caller) (wsub burner_balance value)
    let s2 := ainsert s.tokenSupply token (wsub supply value)
    .ok ({ s with tokenBalance := b2, tokenSupply := s2 },
         Event.Burn token caller value)
  else
    .error Error.NotTokenOwner

/-- Helper `transfer_` (lib.rs 221-227): moves value without origin check or
event, with the same read-both-then-write-both pattern. -/
def transfer_ (s : LedgerState) (token : TokenIndex) (from_ to_ : AccountId)
    (value : Balance) : LedgerState :=
  let from_balance := token_balance s (token, from_)
  let to_balance := token_balance s (token, to_)
  let b1 := ainsert s.tokenBalance (token, from_) (wsub from_balance value)
  let b2 := ainsert b1 (token, to_) (wadd to_balance value)
  { s with tokenBalance := b2 }

/-- Sum of all stored balances of one token (each key occurs at most once
in a state built by the operations above). -/
def balanceSum (s : LedgerState) (t : TokenIndex) : Nat :=
  List.foldr (fun p acc => p.2 + acc) 0
    (s.tokenBalance.filter (fun p => decide (p.1.1 = t)))

/-- Supply conservation for one token: recorded supply equals the sum of
that token's stored balances. -/
def conserved (s : LedgerState) (t : TokenIndex) : Prop :=
  token_supply s t = balanceSum s t

instance instDecidableConserved (s : LedgerState) (t : TokenIndex) :
    Decidable (conserved s t) :=
  inferInstanceAs (Decidable (token_supply s t = balanceSum s t))

/-- True iff a dispatch returned `Ok`. -/
def isOk : DispatchResult → Bool
  | .ok _ => true
  | .error _ => false

/-- Token 0 created by account 1 (owner argument also 1), initial supply 100. -/
def s100 : LedgerState := (create emptyLedger 1 1 [] [] 100 0).1

/-- Token 0 created by caller 1 with a DISTINCT owner argument 2, supply 100. -/
def sOwner2 : LedgerState := (create emptyLedger 1 2 [] [] 100 0).1

/-- Token 0 created by account 1 with initial supply 30. -/
def s30 : LedgerState := (create emptyLedger 1 1 [] [] 30 0).1

/-- Token 0 created by account 1 with initial supply 2^128 - 1. -/
def sMax : LedgerState := (create emptyLedger 1 1 [] [] (BALANCE_MOD - 1) 0).1

/-- A ledger whose 32-bit token counter sits at its maximum value. -/
def sWrap : LedgerState := { emptyLedger with tokenCount := TOKEN_INDEX_MOD - 1 }

theorem alookup_ainsert_same {α β : Type} [DecidableEq α]
    (m : List (α × β)) (k : α) (v : β) :
    alookup (ainsert m k v) k = some v := by
  simp [alookup, ainsert]

/-- C1: conservation fails on the code.  From the empty ledger, creating
token 0 with supply 100 for account 1 keeps `conserved`, but the successful
self-transfer `transfer(0, to := 1, 50)` by account 1 leaves supply 100
against a balance sum of 150, because the second balance write overwrites
the first on the aliased key.  The claim says every successful operation
preserves `Supply[token] == Σ Balance[(token, *)]`. -/
theorem C1_conservation_violated :
    create emptyLedger 1 1 [] [] 100 0 = (s100, Event.Created 0 1) ∧
    conserved s100 0 ∧
    transfer s100 1 0 1 50 =
      .ok ({ s100 with tokenBalance := [((0, 1), 150)] },
        Event.Transfer 0 1 1 50) ∧
    token_supply { s100 with tokenBalance := [((0, 1), 150)] } 0 = 100 ∧
    balanceSum { s100 with tokenBalance := [((0, 1), 150)] } 0 = 150 ∧
    ¬ conserved { s100 with tokenBalance := [((0, 1), 150)] } 0 := by
  decide

/-- C2: `transfer` never checks `Balance[(token, caller)] >= value`.  With
balance 100 < value 150 the dispatch still returns Ok, wraps the sender's
balance to 2^128 - 50, credits the recipient 150 and emits a Transfer
event, instead of failing with InsufficientAmount and leaving state
unchanged as the claim requires. -/
theorem C2_insufficient_transfer_not_rejected :
    token_balance s100 (0, 1) = 100 ∧ token_balance s100 (0, 1) < 150 ∧
    transfer s100 1 0 2 150 =
      .ok ({ s100 with
              tokenBalance := [((0, 2), 150), ((0, 1), BALANCE_MOD - 50)] },
        Event.Transfer 0 1 2 150) := by
  decide

/-- C3: `pause` ignores its `status` argument.  The owner (account 1) calls
`pause(0, true)` on a token whose flag is false; the code re-stores false
and emits `PausedOperation(0, false)`, so `Paused[0]` is NOT set to the
requested status true as the claim requires. -/
theorem C3_pause_does_not_set_status :
    token_owner s100 0 = 1 ∧ token_paused s100 0 = false ∧
    pause s100 1 0 true =
      .ok ({ s100 with tokenPaused := [(0, false)] },
        Event.PausedOperation 0 false) ∧
    token_paused { s100 with tokenPaused := [(0, false)] } 0 = false := by
  decide

/-- C4 counterexample: `create` called by account 1 with owner argument 2
stores account 1 (the caller) in the Owner map, not the owner argument 2;
the argument 2 lands only in `TokenInfo.owner`.  Afterwards account 2 (the
designated owner per the claim) gets NotTokenOwner from `mint`, while the
caller 1 succeeds. -/
theorem C4_counterexample :
    create emptyLedger 1 2 [] [] 100 0 = (sOwner2, Event.Created 0 1) ∧
    token_owner sOwner2 0 = 1 ∧
    (alookup sOwner2.tokens 0).map TokenInfo.owner = some 2 ∧
    mint sOwner2 2 0 5 = .error Error.NotTokenOwner ∧
    isOk (mint sOwner2 1 0 5) = true := by
  decide

/-- C4 (amended): `create` sets the Owner map entry of the new token to the
CALLER, records the `owner` argument only inside `TokenInfo`, credits the
initial supply to the caller, and thereafter mint authorization is decided
against the caller of `create`: any other account fails with NotTokenOwner
and the caller succeeds. -/
theorem C4_create_owner_is_caller (s : LedgerState) (caller owner : AccountId)
    (name symbol : List Nat) (iv : Balance) (bn : Nat) :
    token_owner (create s caller owner name symbol iv bn).1 s.tokenCount =
      caller ∧
    (alookup (create s caller owner name symbol iv bn).1.tokens
        s.tokenCount).map TokenInfo.owner = some owner ∧
    token_balance (create s caller owner name symbol iv bn).1
      (s.tokenCount, caller) = iv ∧
    token_supply (create s caller owner name symbol iv bn).1 s.tokenCount =
      iv ∧
    (∀ c, c ≠ caller →
      mint (create s caller owner name symbol iv bn).1 c s.tokenCount iv =
        .error Error.NotTokenOwner) ∧
    isOk (mint (create s caller owner name symbol iv bn).1 caller
      s.tokenCount iv) = true := by
  refine ⟨?_, ?_, ?_, ?_, ?_, ?_⟩
  · simp [create, token_owner, alookup_ainsert_same]
  · simp [create, alookup_ainsert_same]
  · simp [create, token_balance, alookup_ainsert_same]
  · simp [create, token_supply, alookup_ainsert_same]
  · intro c hc
    simp [mint, create, token_owner, alookup_ainsert_same, hc]
  · simp [mint, isOk, create, token_owner, alookup_ainsert_same]

/-- C4 witness: instance of the amended theorem at caller 3, owner
argument 4, supply 7. -/
theorem C4_create_owner_is_caller_witness :
    token_owner (create emptyLedger 3 4 [] [] 7 0).1 0 = 3 ∧
    mint (create emptyLedger 3 4 [] [] 7 0).1 4 0 7 =
      .error Error.NotTokenOwner :=
  ⟨(C4_create_owner_is_caller emptyLedger 3 4 [] [] 7 0).1,
   (C4_create_owner_is_caller emptyLedger 3 4 [] [] 7 0).2.2.2.2.1 4
     (by decide)⟩

/-- C5: `burn` never checks the sufficiency precondition.  The owner of
token 0 holds balance 30 = supply 30; burning 40 returns Ok, wraps balance
and supply to 2^128 - 10 and emits a Burn event, instead of failing with
InsufficientAmount and leaving state unchanged as the claim requires. -/
theorem C5_insufficient_burn_not_rejected :
    token_balance s30 (0, 1) = 30 ∧ token_supply s30 0 = 30 ∧
    burn s30 1 0 40 =
      .ok ({ s30 with tokenBalance := [((0, 1), BALANCE_MOD - 10)],
                      tokenSupply := [(0, BALANCE_MOD - 10)] },
        Event.Burn 0 1 40) := by
  decide

/-- C6: mint's additions are unchecked.  With supply 2^128 - 1, minting 2
more wraps the owner's balance and the supply around to 1 and returns Ok,
instead of rejecting the overflow with an error as the claim requires. -/
theorem C6_mint_overflow_wraps :
    token_supply sMax 0 = BALANCE_MOD - 1 ∧
    mint sMax 1 0 2 =
      .ok ({ sMax with tokenBalance := [((0, 1), 1)],
                       tokenSupply := [(0, 1)] },
        Event.Mint 0 1 2) := by
  decide

/-- C7 counterexample: with the 32-bit token counter at its maximum value
2^32 - 1, `create` assigns id 2^32 - 1 but wraps TokenCount to 0 instead of
increasing it by 1, and the next `create` assigns id 0 again — the assigned
ids are not strictly increasing. -/
theorem C7_counterexample :
    sWrap.tokenCount = TOKEN_INDEX_MOD - 1 ∧
    (create sWrap 1 1 [] [] 0 0).2 = Event.Created (TOKEN_INDEX_MOD - 1) 1 ∧
    (create sWrap 1 1 [] [] 0 0).1.tokenCount = 0 ∧
    (create (create sWrap 1 1 [] [] 0 0).1 1 1 [] [] 0 0).2 =
      Event.Created 0 1 := by
  decide

/-- C7 (amended): every successful `create` assigns the token id equal to
the pre-call TokenCount and sets TokenCount to (pre-call + 1) mod 2^32;
whenever pre-call TokenCount + 1 < 2^32 this increases TokenCount by
exactly 1, so the ids assigned over any sequence of fewer than 2^32
creates are strictly increasing and never repeat. -/
theorem C7_create_token_ids (s : LedgerState) (caller owner : AccountId)
    (name symbol : List Nat) (iv : Balance) (bn : Nat)
    (h : s.tokenCount + 1 < TOKEN_INDEX_MOD) :
    (create s caller owner name symbol iv bn).2 =
      Event.Created s.tokenCount caller ∧
    (create s caller owner name symbol iv bn).1.tokenCount =
      s.tokenCount + 1 := by
  refine ⟨rfl, ?_⟩
  simp only [create]
  exact Nat.mod_eq_of_lt h

/-- C7 witness: instance of the amended theorem at the empty ledger. -/
theorem C7_create_token_ids_witness :
    (create emptyLedger 5 5 [] [] 0 0).2 = Event.Created 0 5 ∧
    (create emptyLedger 5 5 [] [] 0 0).1.tokenCount = 1 :=
  C7_create_token_ids emptyLedger 5 5 [] [] 0 0 (by decide)

/-- C8: `mint`, `burn` and `pause` are owner-gated: any caller different
from `Owner[token]` receives NotTokenOwner (an error dispatch commits no
state and deposits no event in this model), and the caller equal to
`Owner[token]` always succeeds. -/
theorem C8_owner_gating (s : LedgerState) (caller : AccountId)
    (token : TokenIndex) (value : Balance) (status : Bool) :
    (caller ≠ token_owner s token →
      mint s caller token value = .error Error.NotTokenOwner ∧
      burn s caller token value = .error Error.NotTokenOwner ∧
      pause s caller token status = .error Error.NotTokenOwner) ∧
    (caller = token_owner s token →
      isOk (mint s caller token value) = true ∧
      isOk (burn s caller token value) = true ∧
      isOk (pause s caller token status) = true) := by
  constructor
  · intro h
    refine ⟨?_, ?_, ?_⟩ <;> simp [mint, burn, pause, h]
  · intro h
    refine ⟨?_, ?_, ?_⟩ <;> simp [mint, burn, pause, isOk, h]

/-- C8 witness: on token 0 owned by account 1, account 2 gets
NotTokenOwner from mint and account 1 succeeds. -/
theorem C8_owner_gating_witness :
    mint s100 2 0 5 = .error Error.NotTokenOwner ∧
    isOk (mint s100 1 0 5) = true :=
  ⟨((C8_owner_gating s100 2 0 5 true).1 (by decide)).1,
   ((C8_owner_gating s100 1 0 5 true).2 (by decide)).1⟩

/-- C9: self-transfer credits the caller.  When the recipient equals the
sender, both balances are read before either write, and the second insert
overwrites the first, so `transfer`, `transfer_from` and the helper
`transfer_` all succeed and leave the account's balance equal to its prior
value plus `value` (no overflow assumed), with the token's supply
unchanged. -/
theorem C9_self_transfer (s : LedgerState) (caller : AccountId)
    (token : TokenIndex) (value : Balance)
    (h : token_balance s (token, caller) + value < BALANCE_MOD) :
    (transfer s caller token caller value).toOption.map
        (fun p => (token_balance p.1 (token, caller),
          token_supply p.1 token, p.2)) =
      some (token_balance s (token, caller) + value, token_supply s token,
        Event.Transfer token caller caller value) ∧
    (transfer_from s caller token caller value).toOption.map
        (fun p => (token_balance p.1 (token, caller),
          token_supply p.1 token, p.2)) =
      some (token_balance s (token, caller) + value, token_supply s token,
        Event.TransferFrom token caller caller value) ∧
    token_balance (transfer_ s token caller caller value) (token, caller) =
      token_balance s (token, caller) + value ∧
    token_supply (transfer_ s token caller caller value) token =
      token_supply s token := by
  have h2 : (alookup s.tokenBalance (token, caller)).getD 0 + value <
      BALANCE_MOD := h
  refine ⟨?_, ?_, ?_, ?_⟩ <;>
    simp [transfer, transfer_from, transfer_, Except.toOption, token_balance,
      token_supply, alookup_ainsert_same, wadd, Nat.mod_eq_of_lt h2]

/-- C9 witness: self-transfer of 50 on token 0 by account 1 holding 100
yields balance 150 with supply still 100, for all three entry points. -/
theorem C9_self_transfer_witness :
    (transfer s100 1 0 1 50).toOption.map
        (fun p => (token_balance p.1 (0, 1), token_supply p.1 0, p.2)) =
      some (150, 100, Event.Transfer 0 1 1 50) ∧
    (transfer_from s100 1 0 1 50).toOption.map
        (fun p => (token_balance p.1 (0, 1), token_supply p.1 0, p.2)) =
      some (150, 100, Event.TransferFrom 0 1 1 50) ∧
    token_balance (transfer_ s100 0 1 1 50) (0, 1) = 150 ∧
    token_supply (transfer_ s100 0 1 1 50) 0 = 100 :=
  C9_self_transfer s100 1 0 50 (by decide)

/-- C10: no operation checks that a token id exists.  For a token id with
no Owner-map entry, the owner read falls back to the default AccountId, so
transfer and transfer_from proceed against zero balances, and the account
equal to the default AccountId passes the ownership gate of mint, burn and
pause — in particular it can mint supply for a never-created token. -/
theorem C10_missing_existence_check (s : LedgerState) (token : TokenIndex)
    (caller to_ : AccountId) (value : Balance)
    (h : alookup s.tokenOwner token = none)
    (hv : token_supply s token + value < BALANCE_MOD) :
    token_owner s token = defaultAccount ∧
    isOk (transfer s caller token to_ value) = true ∧
    isOk (transfer_from s caller token to_ value) = true ∧
    (mint s defaultAccount token value).toOption.map
        (fun p => token_supply p.1 token) =
      some (token_supply s token + value) ∧
    isOk (pause s defaultAccount token true) = true ∧
    isOk (burn s defaultAccount token value) = true := by
  have howner : token_owner s token = defaultAccount := by
    simp [token_owner, h]
  refine ⟨howner, rfl, rfl, ?_, ?_, ?_⟩
  · simp [mint, howner, Except.toOption, token_supply, alookup_ainsert_same,
      wadd]
    exact Nat.mod_eq_of_lt hv
  · simp [pause, isOk, howner]
  · simp [burn, isOk, howner]

/-- C10 witness: on the empty ledger, token 7 was never created, yet
account 0 (the default AccountId) mints 5 of it. -/
theorem C10_missing_existence_check_witness :
    token_owner emptyLedger 7 = defaultAccount ∧
    isOk (transfer emptyLedger 3 7 4 5) = true ∧
    isOk (transfer_from emptyLedger 3 7 4 5) = true ∧
    (mint emptyLedger defaultAccount 7 5).toOption.map
        (fun p => token_supply p.1 7) = some 5 ∧
    isOk (pause emptyLedger defaultAccount 7 true) = true ∧
    isOk (burn emptyLedger defaultAccount 7 5) = true :=
  C10_missing_existence_check emptyLedger 7 3 4 5 (by decide) (by decide)

end PalletToken
